import Mathlib

/-!
Verification development for the DuckDB warehouse validation script
(`src/validation/duckdb_validation.py`).

The script is embedded shallowly:

* The DuckDB connection is modelled by `DBConn`, a record of the three
  fallible results the script obtains from the engine: the `SHOW TABLES`
  listing, `DESCRIBE <table>` per table, and the scalar boolean result of a
  data-test query.  `Except String` models a Python exception carrying its
  message.
* `validate_table_exists`, `validate_schema` and `run_data_tests` are
  translated function by function; Python `for` loops with a `success`
  accumulator become structural recursion (`schemaLoop`, `dataLoop`,
  `structuralLoop`).  A `try/except` around an engine call corresponds to
  matching on the `Except` value and turning the error into a printed
  finding; an engine call made *outside* any `try` (the `SHOW TABLES`
  call in `validate_table_exists`) propagates as an `Except.error`.
* `RunOutcome` records the observable end of a run: `fatal` (the script
  printed one message and called `sys.exit(2)`), `finished` (the script
  reached `con.close()`, printed a summary and called `sys.exit(0/1)`),
  or `uncaughtError` (a Python exception escaped `main`; the interpreter
  prints a traceback on stderr and the process exit status is 1, and
  `con.close()` was never reached).
* `runScript` additionally models the module level
  `assert os.path.exists(DB_PATH)` which runs at import time, before
  `main`: when the database file is missing the `AssertionError` escapes
  and `main` never runs.
-/

namespace DuckDBValidation

/-- Single-quote character, as used in the script's printed messages. -/
def sq : String := "\x27"

/-- Wrap a string in single quotes, as the script's f-strings do. -/
def quoted (s : String) : String := sq ++ s ++ sq

/-- Python `str(b)` for a boolean. -/
def pyBool : Bool → String
  | true => "True"
  | false => "False"

/-- Python `s.lower()` (the script's type names are ASCII, where Python
lowercasing and `Char.toLower` agree). -/
def pyLower (s : String) : String := String.mk (s.data.map Char.toLower)

/-- Python substring test `needle in hay` on strings. -/
def pyIn (needle hay : String) : Bool :=
  (List.range (hay.toList.length + 1)).any fun i =>
    needle.toList.isPrefixOf (hay.toList.drop i)

/-- Lookup in the dict built by `{col[0]: col[1] for col in info}`:
later bindings overwrite earlier ones. -/
def dictLookup (info : List (String × String)) (k : String) : Option String :=
  info.reverse.lookup k

/-- Module-level constant `DB_PATH`. -/
def DB_PATH : String := "./data_warehouse/job_ads.duckdb"

/-- Module-level constant `EXPECTED_SCHEMAS` (a Python dict; dicts preserve
insertion order, so it is a list of `(table, columns)` pairs where the
columns are `(name, expected type)` pairs). -/
def EXPECTED_SCHEMAS : List (String × List (String × String)) :=
  [ ("fct_job_ads",
      [ ("job_description_id", "INTEGER")
      , ("auxilliary_id", "VARCHAR")
      , ("employer_id", "VARCHAR")
      , ("job_details_id", "VARCHAR")
      , ("occupation_id", "VARCHAR")
      , ("vacancies", "INTEGER")
      , ("relevance", "DOUBLE")
      , ("application_deadline", "TIMESTAMP") ])
  , ("dim_occupation",
      [ ("occupation_id", "VARCHAR")
      , ("occupation", "VARCHAR")
      , ("occupation_group", "VARCHAR")
      , ("occupation_field", "VARCHAR") ])
  , ("dim_job_details",
      [ ("job_details_id", "VARCHAR")
      , ("employment_type", "VARCHAR")
      , ("salary_type", "VARCHAR")
      , ("duration", "VARCHAR")
      , ("scope_of_work_min", "INTEGER")
      , ("scope_of_work_max", "INTEGER") ])
  , ("dim_job_description",
      [ ("job_description_id", "INTEGER")
      , ("headline", "VARCHAR")
      , ("description_text", "VARCHAR")
      , ("description_html", "VARCHAR") ])
  , ("dim_employer",
      [ ("employer_id", "VARCHAR")
      , ("employer_name", "VARCHAR")
      , ("employer_workplace", "VARCHAR")
      , ("employer_organization_number", "VARCHAR")
      , ("workplace_street_address", "VARCHAR")
      , ("workplace_region", "VARCHAR")
      , ("workplace_postcode", "VARCHAR")
      , ("workplace_city", "VARCHAR")
      , ("workplace_country", "VARCHAR") ])
  , ("dim_auxilliary_attributes",
      [ ("auxilliary_id", "VARCHAR")
      , ("experience_required", "VARCHAR")
      , ("access_to_own_car", "VARCHAR")
      , ("driving_license_required", "VARCHAR") ])
  , ("mart_it",
      [ ("vacancies", "INTEGER")
      , ("occupation", "VARCHAR")
      , ("occupation_field", "VARCHAR")
      , ("application_deadline", "TIMESTAMP")
      , ("headline", "VARCHAR")
      , ("employer_name", "VARCHAR")
      , ("employment_type", "VARCHAR")
      , ("salary_type", "VARCHAR")
      , ("duration", "VARCHAR")
      , ("workplace_region", "VARCHAR")
      , ("job_description_id", "INTEGER")
      , ("description_html", "VARCHAR")
      , ("occupation_group", "VARCHAR") ])
  , ("mart_economics",
      [ ("vacancies", "INTEGER")
      , ("occupation", "VARCHAR")
      , ("occupation_field", "VARCHAR")
      , ("application_deadline", "TIMESTAMP")
      , ("headline", "VARCHAR")
      , ("employer_name", "VARCHAR")
      , ("employment_type", "VARCHAR")
      , ("salary_type", "VARCHAR")
      , ("duration", "VARCHAR")
      , ("workplace_region", "VARCHAR")
      , ("job_description_id", "INTEGER")
      , ("description_html", "VARCHAR")
      , ("occupation_group", "VARCHAR") ])
  , ("mart_construction",
      [ ("vacancies", "INTEGER")
      , ("occupation", "VARCHAR")
      , ("occupation_field", "VARCHAR")
      , ("application_deadline", "TIMESTAMP")
      , ("headline", "VARCHAR")
      , ("employer_name", "VARCHAR")
      , ("employment_type", "VARCHAR")
      , ("salary_type", "VARCHAR")
      , ("duration", "VARCHAR")
      , ("workplace_region", "VARCHAR")
      , ("job_description_id", "INTEGER")
      , ("description_html", "VARCHAR")
      , ("occupation_group", "VARCHAR") ]) ]

/-- One entry of `DATA_TESTS`. -/
structure DataTest where
  description : String
  query : String
  expected : Bool
deriving DecidableEq

/-- Module-level list `DATA_TESTS`: one non-emptiness check per table of
`EXPECTED_SCHEMAS` (built in a `for` loop over its keys), followed by the
three literal mart referential-integrity checks. -/
def DATA_TESTS : List DataTest :=
  (EXPECTED_SCHEMAS.map fun p =>
    { description := p.1 ++ " should not be empty"
    , query := "SELECT COUNT(*) > 0 FROM " ++ p.1 ++ ";"
    , expected := true }) ++
  [ { description := "All job_description_ids in mart_IT must exist in fct_job_ads"
    , query := "SELECT COUNT(*) = 0 FROM mart_it m LEFT JOIN fct_job_ads f USING(job_description_id) WHERE f.job_description_id IS NULL;"
    , expected := true }
  , { description := "All job_description_ids in mart_economics must exist in fct_job_ads"
    , query := "SELECT COUNT(*) = 0 FROM mart_economics m LEFT JOIN fct_job_ads f USING(job_description_id) WHERE f.job_description_id IS NULL;"
    , expected := true }
  , { description := "All job_description_ids in mart_construction must exist in fct_job_ads"
    , query := "SELECT COUNT(*) = 0 FROM mart_construction m LEFT JOIN fct_job_ads f USING(job_description_id) WHERE f.job_description_id IS NULL;"
    , expected := true } ]

/-- The engine-facing behaviour of one open DuckDB connection, as the
script uses it: the result of `SHOW TABLES` (the set of names), the result
of `DESCRIBE t` for each `t` (list of `(column, type)` rows), and the
scalar boolean result of each data-test query.  `Except.error e` models
the call raising a Python exception with message `e`. -/
structure DBConn where
  showTablesResult : Except String (List String)
  describeResult : String → Except String (List (String × String))
  queryResult : String → Except String Bool

/-- Function `validate_table_exists(con, table)`: the `SHOW TABLES` call is
made outside any `try`, so its failure propagates (`Except.error`).
Otherwise the function prints a message and returns `False` when the table
is absent, and prints nothing and returns `True` when present. -/
def validate_table_exists (con : DBConn) (table : String) :
    Except String (List String × Bool) :=
  match con.showTablesResult with
  | .error e => .error e
  | .ok tables =>
    if table ∈ tables then .ok ([], true)
    else .ok (["ERROR: Missing table " ++ quoted table], false)

/-- The message printed (if any) for one expected column, given the live
description `actual`: missing column, type mismatch (case-insensitive
substring test `expected_type.lower() in actual[col].lower()`), or nothing. -/
def columnFinding (table : String) (actual : List (String × String))
    (col expectedType : String) : Option String :=
  match dictLookup actual col with
  | none => some ("ERROR: Column " ++ quoted col ++ " missing from table " ++ quoted table)
  | some actualType =>
    if pyIn (pyLower expectedType) (pyLower actualType) then none
    else some ("ERROR: Column " ++ quoted col ++ " in " ++ quoted table ++
        " expected type " ++ quoted expectedType ++ " but got " ++ quoted actualType)

/-- The `for col, expected_type in expected_cols.items()` loop of
`validate_schema`, threading the printed lines and the `ok` flag. -/
def schemaLoop (table : String) (actual : List (String × String)) :
    List (String × String) → List String → Bool → List String × Bool
  | [], out, ok => (out, ok)
  | (col, ty) :: rest, out, ok =>
    match columnFinding table actual col ty with
    | none => schemaLoop table actual rest out ok
    | some msg => schemaLoop table actual rest (out ++ [msg]) false

/-- Function `validate_schema(con, table, expected_cols)`: `DESCRIBE` runs
inside `try/except`, so its failure becomes a printed line and `False`;
otherwise each expected column is checked in order. -/
def validate_schema (con : DBConn) (table : String)
    (expected_cols : List (String × String)) : List String × Bool :=
  match con.describeResult table with
  | .error e =>
    (["ERROR: Could not DESCRIBE table " ++ quoted table ++ ": " ++ e], false)
  | .ok info => schemaLoop table info expected_cols [] true

/-- The lines printed for one data test: the query runs inside `try/except`,
so a failure becomes one `ERROR running data test` line; a scalar different
from `expected` prints the two `DATA TEST FAILED` lines; a matching scalar
prints nothing. -/
def dataTestFinding (con : DBConn) (t : DataTest) : List String :=
  match con.queryResult t.query with
  | .error e =>
    ["ERROR running data test " ++ quoted t.description ++ ": " ++ e]
  | .ok result =>
    if result != t.expected then
      [ "DATA TEST FAILED: " ++ t.description
      , "Expected " ++ pyBool t.expected ++ " but got " ++ pyBool result ]
    else []

/-- The `for test in DATA_TESTS` loop of `run_data_tests`, threading the
printed lines and the `success` flag. -/
def dataLoop (con : DBConn) : List DataTest → List String → Bool → List String × Bool
  | [], out, ok => (out, ok)
  | t :: rest, out, ok =>
    match dataTestFinding con t with
    | [] => dataLoop con rest out ok
    | msgs => dataLoop con rest (out ++ msgs) false

/-- Function `run_data_tests(con)`. -/
def run_data_tests (con : DBConn) : List String × Bool :=
  dataLoop con DATA_TESTS [] true

/-- The `for table, schema in EXPECTED_SCHEMAS.items()` loop of `main`:
a missing table sets `success = False` and `continue`s past the schema
check; a propagating exception from `validate_table_exists` aborts the
loop carrying the lines printed so far. -/
def structuralLoop (con : DBConn) :
    List (String × List (String × String)) → List String → Bool →
    Except (List String) (List String × Bool)
  | [], out, ok => .ok (out, ok)
  | (table, schema) :: rest, out, ok =>
    match validate_table_exists con table with
    | .error _ => .error out
    | .ok (msgs, tableOk) =>
      if tableOk then
        let r := validate_schema con table schema
        structuralLoop con rest (out ++ msgs ++ r.1) (ok && r.2)
      else
        structuralLoop con rest (out ++ msgs) false

/-- Observable end of a run of `main` (or of the whole script). -/
inductive RunOutcome where
  | fatal (message : String)
  | uncaughtError (printed : List String)
  | finished (findings : List String) (summary : String) (code : Nat)
deriving DecidableEq

/-- Process exit status: `sys.exit(2)` on the fatal path, the code passed
to `sys.exit` on the finished path, and 1 for an uncaught Python
exception (the interpreter's exit status for an unhandled exception). -/
def RunOutcome.exitCode : RunOutcome → Nat
  | .fatal _ => 2
  | .uncaughtError _ => 1
  | .finished _ _ c => c

/-- The validation finding lines printed to stdout (the fatal message and
the summary line are kept separately; a traceback is not a finding). -/
def RunOutcome.findings : RunOutcome → List String
  | .fatal _ => []
  | .uncaughtError printed => printed
  | .finished out _ _ => out

/-- The fatal messages printed (one on the exit-2 path, none otherwise). -/
def RunOutcome.fatalMessages : RunOutcome → List String
  | .fatal m => [m]
  | _ => []

/-- How many times `con.close()` ran: once iff the straight-line code of
`main` after the validators was reached. -/
def RunOutcome.closeCalls : RunOutcome → Nat
  | .finished _ _ _ => 1
  | _ => 0

/-- Function `main()`, given the outcome of `duckdb.connect(DB_PATH)`:
connect failure prints one message and exits 2; otherwise the structural
loop runs, then `run_data_tests`, then `con.close()`, the summary and
`sys.exit(0/1)`.  An exception escaping the structural loop skips
`con.close()` and the summary. -/
def mainRun (connectResult : Except String DBConn) : RunOutcome :=
  match connectResult with
  | .error e =>
    .fatal ("ERROR: Could not open DuckDB at " ++ DB_PATH ++ ": " ++ e)
  | .ok con =>
    match structuralLoop con EXPECTED_SCHEMAS [] true with
    | .error printed => .uncaughtError printed
    | .ok (out1, ok1) =>
      let r := run_data_tests con
      if ok1 && r.2 then
        .finished (out1 ++ r.1) "DuckDB validation succeeded." 0
      else
        .finished (out1 ++ r.1) "DuckDB validation FAILED." 1

/-- The whole script: the module body first evaluates
`assert os.path.exists(DB_PATH), ...` (line 21), so when the database file
is missing an `AssertionError` escapes at import time, before `main` ever
runs; otherwise `main` runs with the given connect outcome. -/
def runScript (dbFileExists : Bool) (connectResult : Except String DBConn) :
    RunOutcome :=
  if dbFileExists then mainRun connectResult
  else .uncaughtError []

/-!  A small model of the DuckDB engine, restricted to the statements this
script actually issues, used to build concrete connections for the
end-to-end scenarios.  A table is its name, its `DESCRIBE` rows and its
data rows; since the only queries issued are `COUNT(*) > 0` per table and
the three mart/fact anti-joins on `job_description_id`, a data row is
represented by its `job_description_id` value (`none` when NULL or when
the table has no such column — only the row count matters then). -/

/-- One live table of the modelled database. -/
structure LiveTable where
  name : String
  columns : List (String × String)
  rows : List (Option Int)
deriving DecidableEq

/-- A live database: the list of its tables and views. -/
structure LiveDB where
  tables : List LiveTable
deriving DecidableEq

/-- Names listed by `SHOW TABLES`. -/
def LiveDB.names (db : LiveDB) : List String := db.tables.map (·.name)

/-- Find a table by name. -/
def LiveDB.find (db : LiveDB) (t : String) : Option LiveTable :=
  db.tables.find? (·.name == t)

/-- The non-emptiness query text issued for `table`. -/
def nonEmptySql (table : String) : String :=
  "SELECT COUNT(*) > 0 FROM " ++ table ++ ";"

/-- The referential-integrity query text issued for a mart `m`:
rows of `m` whose `job_description_id` has no match in `fct_job_ads`
(a `LEFT JOIN ... IS NULL` anti-join) must number zero. -/
def refSql (m : String) : String :=
  "SELECT COUNT(*) = 0 FROM " ++ m ++
  " m LEFT JOIN fct_job_ads f USING(job_description_id) WHERE f.job_description_id IS NULL;"

/-- SQL join matching on `USING(job_description_id)`: a NULL key matches
nothing; a non-NULL key matches iff some referenced row carries it. -/
def keyMatches (refRows : List (Option Int)) : Option Int → Bool
  | none => false
  | some k => refRows.contains (some k)

/-- Evaluate one of the script's queries against the modelled database:
a `COUNT(*) > 0` test is true iff the table has rows; an anti-join test is
true iff every mart row's key matches a `fct_job_ads` row; any query over
an absent table raises a catalog error. -/
def LiveDB.evalQuery (db : LiveDB) (q : String) : Except String Bool :=
  match db.tables.find? (fun t => q == nonEmptySql t.name) with
  | some t => .ok (decide (0 < t.rows.length))
  | none =>
    match db.tables.find? (fun t => q == refSql t.name) with
    | some m =>
      match db.find "fct_job_ads" with
      | some f => .ok ((m.rows.filter fun k => !keyMatches f.rows k).length == 0)
      | none => .error "Catalog Error: Table fct_job_ads does not exist"
    | none => .error ("Catalog Error: cannot run query " ++ quoted q)

/-- The connection the script would hold on the modelled database. -/
def LiveDB.conn (db : LiveDB) : DBConn where
  showTablesResult := .ok db.names
  describeResult := fun t =>
    match db.find t with
    | some tab => .ok tab.columns
    | none => .error ("Catalog Error: Table " ++ quoted t ++ " does not exist")
  queryResult := db.evalQuery

/-- Build a database holding exactly the contract tables, with the live
columns equal to the expected ones and the given rows per table. -/
def mkDB (rows : String → List (Option Int)) : LiveDB :=
  ⟨EXPECTED_SCHEMAS.map fun p => ⟨p.1, p.2, rows p.1⟩⟩

/-- Fully healthy database: every table has a row and every mart key
matches the fact table. -/
def goodDB : LiveDB :=
  mkDB fun t => if t == "fct_job_ads" then [some 1, some 2]
    else if t == "mart_it" then [some 1]
    else if t == "mart_economics" then [some 2]
    else if t == "mart_construction" then [some 1]
    else [none]

/-- Database for the referential scenario: the dependent mart `mart_it`
holds keys 1, 2, 3 while `fct_job_ads` holds keys 1, 2; everything else is
healthy. -/
def db6 : LiveDB :=
  mkDB fun t => if t == "fct_job_ads" then [some 1, some 2]
    else if t == "mart_it" then [some 1, some 2, some 3]
    else if t == "mart_economics" then [some 2]
    else if t == "mart_construction" then [some 1]
    else [none]

/-- Database for the emptiness scenario: `dim_occupation` has zero rows;
everything else is healthy. -/
def db7 : LiveDB :=
  mkDB fun t => if t == "fct_job_ads" then [some 1, some 2]
    else if t == "mart_it" then [some 1]
    else if t == "mart_economics" then [some 2]
    else if t == "mart_construction" then [some 1]
    else if t == "dim_occupation" then []
    else [none]

/-- Healthy row assignment (shared by `goodDB` and `noOccDB`). -/
def goodRows (t : String) : List (Option Int) :=
  if t == "fct_job_ads" then [some 1, some 2]
  else if t == "mart_it" then [some 1]
  else if t == "mart_economics" then [some 2]
  else if t == "mart_construction" then [some 1]
  else [none]

/-- Database for the missing-relation scenario: every contract table except
`dim_occupation` exists and is healthy. -/
def noOccDB : LiveDB :=
  ⟨(EXPECTED_SCHEMAS.filter fun p => p.1 != "dim_occupation").map
    fun p => ⟨p.1, p.2, goodRows p.1⟩⟩

/-- A connection on which every engine call raises (e.g. the database file
handle became invalid right after connecting): in particular the unguarded
`SHOW TABLES` call raises. -/
def crashCon : DBConn where
  showTablesResult := .error "IO Error: database handle invalidated"
  describeResult := fun _ => .error "IO Error: database handle invalidated"
  queryResult := fun _ => .error "IO Error: database handle invalidated"

/-- A connection whose `SHOW TABLES` raises while every data-test query
would return `false` (every data check would fail, were it ever run). -/
def crashCon2 : DBConn where
  showTablesResult := .error "IO Error: database handle invalidated"
  describeResult := fun _ => .error "IO Error: database handle invalidated"
  queryResult := fun _ => .ok false

/-- A connection that lists one table but fails every `DESCRIBE` and every
query (used to witness the conversion of adapter failures into findings). -/
def failCon : DBConn where
  showTablesResult := .ok ["fct_job_ads"]
  describeResult := fun _ => .error "Catalog Error"
  queryResult := fun _ => .error "Binder Error"

/-- A connection with a one-column table `t`. -/
def plainCon : DBConn where
  showTablesResult := .ok ["t"]
  describeResult := fun _ => .ok [("a", "INTEGER")]
  queryResult := fun _ => .error "x"

/-- Like `plainCon` but the live table carries an extra column `zz` that no
contract declares. -/
def extraCon : DBConn where
  showTablesResult := .ok ["t"]
  describeResult := fun _ => .ok [("a", "INTEGER"), ("zz", "VARCHAR")]
  queryResult := fun _ => .error "x"

/-- The structural work `main` performs for one contract entry `p`, given
the table listing `ts` the connection returned: the printed lines and the
per-table success flag (missing table, or else the schema check). -/
def tableReport (con : DBConn) (ts : List String)
    (p : String × List (String × String)) : List String × Bool :=
  if p.1 ∈ ts then validate_schema con p.1 p.2
  else (["ERROR: Missing table " ++ quoted p.1], false)

/-! Characterization lemmas. -/

/-- Python `needle in hay` holds exactly when `needle` is a contiguous
substring of `hay`. -/
theorem pyIn_iff (needle hay : String) :
    pyIn needle hay = true ↔ needle.toList <:+: hay.toList := by
  constructor
  · intro h
    obtain ⟨i, _, hpre⟩ := List.any_eq_true.mp h
    exact List.infix_iff_prefix_suffix.mpr
      ⟨hay.toList.drop i, List.isPrefixOf_iff_prefix.mp hpre, List.drop_suffix i _⟩
  · intro hinf
    obtain ⟨t, hpre, hsuf⟩ := List.infix_iff_prefix_suffix.mp hinf
    have hlen : t.length ≤ hay.toList.length := hsuf.length_le
    rw [List.suffix_iff_eq_drop] at hsuf
    refine List.any_eq_true.mpr
      ⟨hay.toList.length - t.length, List.mem_range.mpr (by omega), ?_⟩
    rw [← hsuf]
    exact List.isPrefixOf_iff_prefix.mpr hpre

/-- Pointwise equal predicates give equal `List.all` results. -/
theorem all_congr_of_eq {α : Type} {f g : α → Bool} :
    ∀ xs : List α, (∀ u ∈ xs, f u = g u) → xs.all f = xs.all g
  | [], _ => rfl
  | u :: us, hfg => by
    simp only [List.all_cons, hfg u (by simp)]
    rw [all_congr_of_eq us fun v hv => hfg v (by simp [hv])]

/-- The column loop of `validate_schema` prints exactly one line per
offending declared column, in declaration order, and succeeds exactly when
no declared column offends. -/
theorem schemaLoop_spec (table : String) (actual : List (String × String))
    (cols : List (String × String)) (out : List String) (ok : Bool) :
    schemaLoop table actual cols out ok =
      (out ++ cols.filterMap (fun c => columnFinding table actual c.1 c.2),
       ok && cols.all fun c => (columnFinding table actual c.1 c.2).isNone) := by
  induction cols generalizing out ok with
  | nil => simp [schemaLoop]
  | cons c rest ih =>
    obtain ⟨col, ty⟩ := c
    cases h : columnFinding table actual col ty with
    | none => simp [schemaLoop, h, ih]
    | some msg => simp [schemaLoop, h, ih]

/-- The loop of `run_data_tests` prints exactly the lines of each test in
declaration order and succeeds exactly when every test printed nothing. -/
theorem dataLoop_spec (con : DBConn) (tests : List DataTest)
    (out : List String) (ok : Bool) :
    dataLoop con tests out ok =
      (out ++ (tests.map (dataTestFinding con)).flatten,
       ok && tests.all fun t => (dataTestFinding con t).isEmpty) := by
  induction tests generalizing out ok with
  | nil => simp [dataLoop]
  | cons t rest ih =>
    cases h : dataTestFinding con t with
    | nil => simp [dataLoop, h, ih]
    | cons m ms => simp [dataLoop, h, ih]

/-- When `SHOW TABLES` answers, the structural loop of `main` never aborts:
it prints exactly each contract entry's report in declaration order and
succeeds exactly when every entry's report succeeded. -/
theorem structuralLoop_spec (con : DBConn) (ts : List String)
    (h : con.showTablesResult = .ok ts)
    (l : List (String × List (String × String))) (out : List String) (ok : Bool) :
    structuralLoop con l out ok =
      .ok (out ++ (l.map fun p => (tableReport con ts p).1).flatten,
        ok && l.all fun p => (tableReport con ts p).2) := by
  induction l generalizing out ok with
  | nil => simp [structuralLoop]
  | cons p rest ih =>
    obtain ⟨table, schema⟩ := p
    by_cases hm : table ∈ ts
    · simp [structuralLoop, validate_table_exists, h, hm, tableReport, ih,
        Bool.and_assoc]
    · simp [structuralLoop, validate_table_exists, h, hm, tableReport, ih]

/-- `validate_schema` succeeds exactly when it prints nothing. -/
theorem validate_schema_ok_iff (con : DBConn) (table : String)
    (cols : List (String × String)) :
    (validate_schema con table cols).2 = true ↔
      (validate_schema con table cols).1 = [] := by
  cases hd : con.describeResult table with
  | error e => simp [validate_schema, hd]
  | ok info =>
    simp only [validate_schema, hd]
    rw [schemaLoop_spec]
    simp [List.filterMap_eq_nil_iff, List.all_eq_true, Option.isNone_iff_eq_none]

/-- A table's structural report succeeds exactly when it prints nothing. -/
theorem tableReport_ok_iff (con : DBConn) (ts : List String)
    (p : String × List (String × String)) :
    (tableReport con ts p).2 = true ↔ (tableReport con ts p).1 = [] := by
  unfold tableReport
  by_cases hm : p.1 ∈ ts
  · simpa [hm] using validate_schema_ok_iff con p.1 p.2
  · simp [hm]

/-- `run_data_tests` succeeds exactly when it prints nothing. -/
theorem run_data_tests_ok_iff (con : DBConn) :
    (run_data_tests con).2 = true ↔ (run_data_tests con).1 = [] := by
  unfold run_data_tests
  rw [dataLoop_spec]
  simp [List.all_eq_true, List.flatten_eq_nil_iff, List.isEmpty_iff]

/-- When `SHOW TABLES` answers, `run_data_tests` prints exactly each data
test's lines in declaration order. -/
theorem run_data_tests_eq (con : DBConn) :
    run_data_tests con =
      ((DATA_TESTS.map (dataTestFinding con)).flatten,
       DATA_TESTS.all fun t => (dataTestFinding con t).isEmpty) := by
  unfold run_data_tests
  rw [dataLoop_spec]
  simp

/-- When `SHOW TABLES` answers, a run of `main` on an open connection
terminates normally: its findings are exactly the per-table structural
reports followed by the per-test data reports, its summary and exit code
are decided by the conjunction of all success flags, and `con.close()` is
reached. -/
theorem mainRun_eq (con : DBConn) (ts : List String)
    (h : con.showTablesResult = .ok ts) :
    mainRun (.ok con) =
      .finished
        ((EXPECTED_SCHEMAS.map fun p => (tableReport con ts p).1).flatten ++
          (run_data_tests con).1)
        (if (EXPECTED_SCHEMAS.all fun p => (tableReport con ts p).2) &&
            (run_data_tests con).2 then "DuckDB validation succeeded."
          else "DuckDB validation FAILED.")
        (if (EXPECTED_SCHEMAS.all fun p => (tableReport con ts p).2) &&
            (run_data_tests con).2 then 0 else 1) := by
  simp only [mainRun]
  rw [structuralLoop_spec con ts h]
  by_cases hc : ((EXPECTED_SCHEMAS.all fun p => (tableReport con ts p).2) &&
      (run_data_tests con).2) = true
  · simp [hc]
  · simp only [Bool.not_eq_true] at hc
    simp [hc]

/-- When the unguarded `SHOW TABLES` call raises, the structural loop
aborts at its first iteration, carrying only the lines printed so far. -/
theorem structuralLoop_crash (con : DBConn) (e : String)
    (h : con.showTablesResult = .error e)
    (p : String × List (String × String))
    (rest : List (String × List (String × String)))
    (out : List String) (ok : Bool) :
    structuralLoop con (p :: rest) out ok = .error out := by
  obtain ⟨table, schema⟩ := p
  simp [structuralLoop, validate_table_exists, h]

/-- When `SHOW TABLES` raises, `main` dies with an uncaught exception
before printing any finding: `con.close()`, the summary and `sys.exit` are
never reached. -/
theorem mainRun_crash (con : DBConn) (e : String)
    (h : con.showTablesResult = .error e) :
    mainRun (.ok con) = .uncaughtError [] := by
  have h1 : structuralLoop con EXPECTED_SCHEMAS [] true = .error [] := by
    unfold EXPECTED_SCHEMAS
    exact structuralLoop_crash con e h _ _ _ _
  simp only [mainRun, h1]

/-- Lookup skips a block of pairs none of whose keys is the one sought. -/
theorem lookup_append_not_mem (c : String) (l rest : List (String × String))
    (h : ∀ x ∈ l, c ≠ x.1) :
    List.lookup c (l ++ rest) = List.lookup c rest := by
  induction l with
  | nil => rfl
  | cons x xs ih =>
    obtain ⟨k, v⟩ := x
    have hk : (c == k) = false := beq_eq_false_iff_ne.mpr (h (k, v) (by simp))
    simpa [List.lookup_cons, hk] using ih fun y hy => h y (by simp [hy])

/-- Appending live columns with fresh names does not change the dict
lookup of any other column. -/
theorem dictLookup_append (info extras : List (String × String)) (c : String)
    (h : ∀ x ∈ extras, c ≠ x.1) :
    dictLookup (info ++ extras) c = dictLookup info c := by
  unfold dictLookup
  rw [List.reverse_append]
  exact lookup_append_not_mem c extras.reverse info.reverse
    fun x hx => h x (List.mem_reverse.mp hx)

/-! Claims. -/

/-- C1: when the database file is missing at `DB_PATH`, the module level
`assert os.path.exists(DB_PATH)` raises an `AssertionError` before `main`
runs, whatever `duckdb.connect` would have done: the process dies with
exit status 1 (not the documented 2), prints no findings, and the
`ERROR: Could not open DuckDB` fatal path of `main` is never reached. -/
theorem C1_missing_db_asserts_exit1 (cr : Except String DBConn) :
    runScript false cr = .uncaughtError [] ∧
    (runScript false cr).exitCode = 1 ∧
    (runScript false cr).exitCode ≠ 2 ∧
    (runScript false cr).fatalMessages = [] ∧
    (runScript false cr).findings = [] :=
  ⟨rfl, rfl, by simp [runScript, RunOutcome.exitCode], rfl, rfl⟩

/-- C2 (amended): on every run that opens the connection and in which the
relation listing answers (so the run terminates normally), the process
exits 0 exactly when no finding was printed and exits 1 exactly when at
least one finding was printed. -/
theorem C2_exit_code_iff_findings (con : DBConn) (ts : List String)
    (h : con.showTablesResult = .ok ts) :
    ((mainRun (.ok con)).exitCode = 0 ↔ (mainRun (.ok con)).findings = []) ∧
    ((mainRun (.ok con)).exitCode = 1 ↔ (mainRun (.ok con)).findings ≠ []) := by
  have key : (((EXPECTED_SCHEMAS.all fun p => (tableReport con ts p).2) &&
      (run_data_tests con).2) = true) ↔
      (((EXPECTED_SCHEMAS.map fun p => (tableReport con ts p).1).flatten ++
        (run_data_tests con).1) = []) := by
    rw [Bool.and_eq_true, List.append_eq_nil, List.all_eq_true,
      List.flatten_eq_nil_iff]
    constructor
    · rintro ⟨h1, h2⟩
      refine ⟨fun l hl => ?_, (run_data_tests_ok_iff con).mp h2⟩
      obtain ⟨p, hp, rfl⟩ := List.mem_map.mp hl
      exact (tableReport_ok_iff con ts p).mp (h1 p hp)
    · rintro ⟨h1, h2⟩
      exact ⟨fun p hp => (tableReport_ok_iff con ts p).mpr
          (h1 _ (List.mem_map.mpr ⟨p, hp, rfl⟩)),
        (run_data_tests_ok_iff con).mpr h2⟩
  rw [mainRun_eq con ts h]
  simp only [RunOutcome.exitCode, RunOutcome.findings]
  by_cases hb : (((EXPECTED_SCHEMAS.all fun p => (tableReport con ts p).2) &&
      (run_data_tests con).2) = true)
  · rw [if_pos hb]
    exact ⟨iff_of_true rfl (key.mp hb),
      iff_of_false (by omega) fun hne => hne (key.mp hb)⟩
  · rw [if_neg hb]
    have hne : ((EXPECTED_SCHEMAS.map fun p => (tableReport con ts p).1).flatten ++
        (run_data_tests con).1) ≠ [] := fun hnil => hb (key.mpr hnil)
    exact ⟨iff_of_false (by omega) hne, iff_of_true rfl hne⟩

/-- C2, counterexample to the claim as stated: `crashCon` opens the
connection successfully, yet its run records zero findings while the
process exit status is 1, not 0 (the unguarded `SHOW TABLES` raised). -/
theorem C2_counterexample :
    (mainRun (.ok crashCon)).findings = [] ∧
    (mainRun (.ok crashCon)).exitCode = 1 := by
  rw [mainRun_crash crashCon "IO Error: database handle invalidated" rfl]
  exact ⟨rfl, rfl⟩

/-- C2, witness: the healthy database terminates normally and the
equivalences apply to it. -/
theorem C2_witness :
    ((mainRun (.ok goodDB.conn)).exitCode = 0 ↔
      (mainRun (.ok goodDB.conn)).findings = []) ∧
    ((mainRun (.ok goodDB.conn)).exitCode = 1 ↔
      (mainRun (.ok goodDB.conn)).findings ≠ []) :=
  C2_exit_code_iff_findings goodDB.conn goodDB.names rfl

/-- C9 (amended): on every run that opens the connection and in which the
relation listing answers, `con.close()` runs exactly once, on success and
on validation failure alike; it is not reached when a validator raises. -/
theorem C9_close_on_normal_exit (con : DBConn) (ts : List String)
    (h : con.showTablesResult = .ok ts) :
    (mainRun (.ok con)).closeCalls = 1 := by
  rw [mainRun_eq con ts h]
  rfl

/-- C9, counterexample to the claim as stated: `crashCon` opens the
connection, the `SHOW TABLES` call inside `validate_table_exists` raises,
and `con.close()` never runs — there is no `finally` around the
validators. -/
theorem C9_counterexample :
    (mainRun (.ok crashCon)).closeCalls = 0 := by
  rw [mainRun_crash crashCon "IO Error: database handle invalidated" rfl]
  rfl

/-- C9, witness: the healthy database closes its connection exactly once. -/
theorem C9_witness : (mainRun (.ok goodDB.conn)).closeCalls = 1 :=
  C9_close_on_normal_exit goodDB.conn goodDB.names rfl

/-- C10: live columns that no contract declares are invisible to
`validate_schema` — with the same declared columns, a live description
extended by any undeclared columns yields the identical printed lines and
the identical verdict, unconditionally (there is no strict mode). -/
theorem C10_undeclared_columns_ignored (con con2 : DBConn) (table : String)
    (cols info extras : List (String × String))
    (h1 : con.describeResult table = .ok info)
    (h2 : con2.describeResult table = .ok (info ++ extras))
    (hx : ∀ c ∈ cols, ∀ x ∈ extras, c.1 ≠ x.1) :
    validate_schema con2 table cols = validate_schema con table cols := by
  simp only [validate_schema, h1, h2]
  rw [schemaLoop_spec, schemaLoop_spec]
  have hcf : ∀ c ∈ cols, columnFinding table (info ++ extras) c.1 c.2 =
      columnFinding table info c.1 c.2 := by
    intro c hc
    unfold columnFinding
    rw [dictLookup_append info extras c.1 (hx c hc)]
  have hall : (cols.all fun c =>
      (columnFinding table (info ++ extras) c.1 c.2).isNone) =
      (cols.all fun c => (columnFinding table info c.1 c.2).isNone) :=
    all_congr_of_eq cols fun a ha => by rw [hcf a ha]
  rw [List.filterMap_congr hcf, hall]

/-- C10, witness: a live table with the undeclared extra column `zz` gets
the same report as the same table without it. -/
theorem C10_witness :
    plainCon.describeResult "t" = .ok [("a", "INTEGER")] ∧
    extraCon.describeResult "t" = .ok ([("a", "INTEGER")] ++ [("zz", "VARCHAR")]) ∧
    validate_schema extraCon "t" [("a", "INTEGER")] =
      validate_schema plainCon "t" [("a", "INTEGER")] :=
  ⟨rfl, rfl,
    C10_undeclared_columns_ignored plainCon extraCon "t" [("a", "INTEGER")]
      [("a", "INTEGER")] [("zz", "VARCHAR")] rfl rfl (by decide)⟩

/-- C3: a contract relation absent from the live listing gets exactly one
`Missing table` line and a failed flag as its whole structural report — so
no column or type line for it — while the run's findings still decompose
into every contract entry's report followed by every data test's report:
the run is not aborted. -/
theorem C3_missing_relation (con : DBConn) (ts : List String)
    (h : con.showTablesResult = .ok ts) (p : String × List (String × String))
    (hp : p ∈ EXPECTED_SCHEMAS) (habs : p.1 ∉ ts) :
    tableReport con ts p = (["ERROR: Missing table " ++ quoted p.1], false) ∧
    (mainRun (.ok con)).findings =
      (EXPECTED_SCHEMAS.map fun q => (tableReport con ts q).1).flatten ++
      (run_data_tests con).1 := by
  refine ⟨by simp [tableReport, habs], ?_⟩
  rw [mainRun_eq con ts h]
  rfl

/-- C3, witness: on a database lacking `dim_occupation`, the contract entry
for `dim_occupation` reports exactly the one missing-table line and the
rest of the run still proceeds. -/
theorem C3_witness :
    (("dim_occupation",
      [("occupation_id", "VARCHAR"), ("occupation", "VARCHAR"),
       ("occupation_group", "VARCHAR"), ("occupation_field", "VARCHAR")]) ∈
        EXPECTED_SCHEMAS) ∧
    "dim_occupation" ∉ noOccDB.names ∧
    tableReport noOccDB.conn noOccDB.names
      ("dim_occupation",
        [("occupation_id", "VARCHAR"), ("occupation", "VARCHAR"),
         ("occupation_group", "VARCHAR"), ("occupation_field", "VARCHAR")]) =
      (["ERROR: Missing table " ++ quoted "dim_occupation"], false) ∧
    (mainRun (.ok noOccDB.conn)).findings =
      (EXPECTED_SCHEMAS.map fun q => (tableReport noOccDB.conn noOccDB.names q).1).flatten ++
      (run_data_tests noOccDB.conn).1 :=
  ⟨by decide, by decide,
    (C3_missing_relation noOccDB.conn noOccDB.names rfl _ (by decide) (by decide)).1,
    (C3_missing_relation noOccDB.conn noOccDB.names rfl
      ("dim_occupation",
        [("occupation_id", "VARCHAR"), ("occupation", "VARCHAR"),
         ("occupation_group", "VARCHAR"), ("occupation_field", "VARCHAR")])
      (by decide) (by decide)).2⟩

/-- C4: for a describable relation, `validate_schema` prints exactly the
findings of the declared columns in order (one per offending column, none
per compatible column) and succeeds exactly when there is none; a column
absent from the live description yields the missing-column message, and a
present column is compatible exactly when the lowercased expected type is
a contiguous substring of the lowercased live type, the mismatch message
citing both type strings. -/
theorem C4_column_checks (con : DBConn) (table : String)
    (info cols : List (String × String))
    (hd : con.describeResult table = .ok info) :
    validate_schema con table cols =
      (cols.filterMap (fun c => columnFinding table info c.1 c.2),
       cols.all fun c => (columnFinding table info c.1 c.2).isNone) ∧
    (∀ c ty, dictLookup info c = none →
      columnFinding table info c ty =
        some ("ERROR: Column " ++ quoted c ++ " missing from table " ++
          quoted table)) ∧
    (∀ c ty a, dictLookup info c = some a →
      (columnFinding table info c ty = none ↔
        (pyLower ty).toList <:+: (pyLower a).toList) ∧
      (¬ (pyLower ty).toList <:+: (pyLower a).toList →
        columnFinding table info c ty =
          some ("ERROR: Column " ++ quoted c ++ " in " ++ quoted table ++
            " expected type " ++ quoted ty ++ " but got " ++ quoted a))) := by
  refine ⟨?_, ?_, ?_⟩
  · simp only [validate_schema, hd]
    rw [schemaLoop_spec]
    simp
  · intro c ty hc
    simp [columnFinding, hc]
  · intro c ty a hc
    have hiff := pyIn_iff (pyLower ty) (pyLower a)
    constructor
    · simp only [columnFinding, hc]
      cases hin : pyIn (pyLower ty) (pyLower a) with
      | true =>
        rw [if_pos rfl]
        exact iff_of_true rfl (hiff.mp hin)
      | false =>
        rw [if_neg (by simp)]
        exact iff_of_false (by simp) fun hP => by simp [hiff.mpr hP] at hin
    · intro hP
      have hin : pyIn (pyLower ty) (pyLower a) = false := by
        cases hpy : pyIn (pyLower ty) (pyLower a) with
        | false => rfl
        | true => exact absurd (hiff.mp hpy) hP
      simp [columnFinding, hc, hin]

/-- C4, witness: on the healthy database, the `dim_occupation` schema
check prints nothing; an undeclared column name yields the missing-column
message; and an `INTEGER` expectation against a live `VARCHAR` yields the
mismatch message citing both. -/
theorem C4_witness :
    validate_schema goodDB.conn "dim_occupation"
      [("occupation_id", "VARCHAR"), ("occupation", "VARCHAR"),
       ("occupation_group", "VARCHAR"), ("occupation_field", "VARCHAR")] =
      ([("occupation_id", "VARCHAR"), ("occupation", "VARCHAR"),
        ("occupation_group", "VARCHAR"), ("occupation_field", "VARCHAR")].filterMap
          (fun c => columnFinding "dim_occupation"
            [("occupation_id", "VARCHAR"), ("occupation", "VARCHAR"),
             ("occupation_group", "VARCHAR"), ("occupation_field", "VARCHAR")] c.1 c.2),
       [("occupation_id", "VARCHAR"), ("occupation", "VARCHAR"),
        ("occupation_group", "VARCHAR"), ("occupation_field", "VARCHAR")].all
          fun c => (columnFinding "dim_occupation"
            [("occupation_id", "VARCHAR"), ("occupation", "VARCHAR"),
             ("occupation_group", "VARCHAR"), ("occupation_field", "VARCHAR")] c.1 c.2).isNone) ∧
    columnFinding "dim_occupation"
      [("occupation_id", "VARCHAR"), ("occupation", "VARCHAR"),
       ("occupation_group", "VARCHAR"), ("occupation_field", "VARCHAR")]
      "salary" "VARCHAR" =
      some ("ERROR: Column " ++ quoted "salary" ++ " missing from table " ++
        quoted "dim_occupation") ∧
    (¬ (pyLower "INTEGER").toList <:+: (pyLower "VARCHAR").toList →
      columnFinding "dim_occupation"
        [("occupation_id", "VARCHAR"), ("occupation", "VARCHAR"),
         ("occupation_group", "VARCHAR"), ("occupation_field", "VARCHAR")]
        "occupation" "INTEGER" =
        some ("ERROR: Column " ++ quoted "occupation" ++ " in " ++
          quoted "dim_occupation" ++ " expected type " ++ quoted "INTEGER" ++
          " but got " ++ quoted "VARCHAR")) :=
  ⟨(C4_column_checks goodDB.conn "dim_occupation"
      [("occupation_id", "VARCHAR"), ("occupation", "VARCHAR"),
       ("occupation_group", "VARCHAR"), ("occupation_field", "VARCHAR")]
      [("occupation_id", "VARCHAR"), ("occupation", "VARCHAR"),
       ("occupation_group", "VARCHAR"), ("occupation_field", "VARCHAR")] rfl).1,
   (C4_column_checks goodDB.conn "dim_occupation"
      [("occupation_id", "VARCHAR"), ("occupation", "VARCHAR"),
       ("occupation_group", "VARCHAR"), ("occupation_field", "VARCHAR")]
      [("occupation_id", "VARCHAR"), ("occupation", "VARCHAR"),
       ("occupation_group", "VARCHAR"), ("occupation_field", "VARCHAR")] rfl).2.1
      "salary" "VARCHAR" (by decide),
   ((C4_column_checks goodDB.conn "dim_occupation"
      [("occupation_id", "VARCHAR"), ("occupation", "VARCHAR"),
       ("occupation_group", "VARCHAR"), ("occupation_field", "VARCHAR")]
      [("occupation_id", "VARCHAR"), ("occupation", "VARCHAR"),
       ("occupation_group", "VARCHAR"), ("occupation_field", "VARCHAR")] rfl).2.2
      "occupation" "INTEGER" "VARCHAR" (by decide)).2⟩

/-- C5: an adapter failure while describing a relation becomes that
relation's single describe-failure finding; an adapter failure while
executing a data-check query becomes that check's single execution-error
finding; neither propagates (both validators return plainly), and the run
still evaluates every data test and every contract entry. -/
theorem C5_adapter_failures_caught (con : DBConn) (ts : List String)
    (table e : String) (cols : List (String × String)) (t : DataTest)
    (e2 : String) (h : con.showTablesResult = .ok ts)
    (hd : con.describeResult table = .error e)
    (hq : con.queryResult t.query = .error e2) :
    validate_schema con table cols =
      (["ERROR: Could not DESCRIBE table " ++ quoted table ++ ": " ++ e],
        false) ∧
    dataTestFinding con t =
      ["ERROR running data test " ++ quoted t.description ++ ": " ++ e2] ∧
    run_data_tests con = ((DATA_TESTS.map (dataTestFinding con)).flatten,
      DATA_TESTS.all fun x => (dataTestFinding con x).isEmpty) ∧
    (mainRun (.ok con)).findings =
      (EXPECTED_SCHEMAS.map fun q => (tableReport con ts q).1).flatten ++
      (run_data_tests con).1 :=
  ⟨by simp [validate_schema, hd], by simp [dataTestFinding, hq],
   run_data_tests_eq con, by rw [mainRun_eq con ts h]; rfl⟩

/-- C5, witness: on `failCon` every `DESCRIBE` and every query fails, each
failure turns into exactly one finding, and the run still walks the whole
contract and test list. -/
theorem C5_witness :
    validate_schema failCon "fct_job_ads" [("job_description_id", "INTEGER")] =
      (["ERROR: Could not DESCRIBE table " ++ quoted "fct_job_ads" ++ ": " ++
        "Catalog Error"], false) ∧
    dataTestFinding failCon
      { description := "fct_job_ads should not be empty"
      , query := "SELECT COUNT(*) > 0 FROM fct_job_ads;"
      , expected := true } =
      ["ERROR running data test " ++ quoted "fct_job_ads should not be empty" ++
        ": " ++ "Binder Error"] ∧
    run_data_tests failCon = ((DATA_TESTS.map (dataTestFinding failCon)).flatten,
      DATA_TESTS.all fun x => (dataTestFinding failCon x).isEmpty) ∧
    (mainRun (.ok failCon)).findings =
      (EXPECTED_SCHEMAS.map fun q =>
        (tableReport failCon ["fct_job_ads"] q).1).flatten ++
      (run_data_tests failCon).1 :=
  C5_adapter_failures_caught failCon ["fct_job_ads"] "fct_job_ads"
    "Catalog Error" [("job_description_id", "INTEGER")]
    { description := "fct_job_ads should not be empty"
    , query := "SELECT COUNT(*) > 0 FROM fct_job_ads;"
    , expected := true } "Binder Error" rfl rfl rfl

/-- C6: with `mart_it` keyed `{1, 2, 3}` against `fct_job_ads` keyed
`{1, 2}`, the anti-join is non-empty, the referential data test returns
`False` against the expected `True`, and the whole run's findings are
exactly that one failed check's two lines — in particular exactly one
`DATA TEST FAILED` line, citing the check's description. -/
theorem C6_referential_failure :
    (run_data_tests db6.conn).1 =
      ["DATA TEST FAILED: All job_description_ids in mart_IT must exist in fct_job_ads",
       "Expected True but got False"] ∧
    (run_data_tests db6.conn).1.count
      "DATA TEST FAILED: All job_description_ids in mart_IT must exist in fct_job_ads" = 1 ∧
    (mainRun (.ok db6.conn)).findings =
      ["DATA TEST FAILED: All job_description_ids in mart_IT must exist in fct_job_ads",
       "Expected True but got False"] := by
  refine ⟨by decide, by decide, by decide⟩

/-- C7: every contract relation has its non-emptiness data test in
`DATA_TESTS`; on a database where `dim_occupation` has zero rows and all
else is healthy, the run's findings are exactly that test's two lines —
one `DATA TEST FAILED` finding — while `dim_occupation` itself still
passes its full structural validation (existence, columns, types). -/
theorem C7_nonemptiness (p : String × List (String × String))
    (hp : p ∈ EXPECTED_SCHEMAS) :
    ({ description := p.1 ++ " should not be empty"
     , query := "SELECT COUNT(*) > 0 FROM " ++ p.1 ++ ";"
     , expected := true } : DataTest) ∈ DATA_TESTS ∧
    (mainRun (.ok db7.conn)).findings =
      ["DATA TEST FAILED: dim_occupation should not be empty",
       "Expected True but got False"] ∧
    tableReport db7.conn db7.names
      ("dim_occupation",
        [("occupation_id", "VARCHAR"), ("occupation", "VARCHAR"),
         ("occupation_group", "VARCHAR"), ("occupation_field", "VARCHAR")]) =
      ([], true) := by
  refine ⟨?_, by decide, by decide⟩
  exact List.mem_append.mpr (Or.inl (List.mem_map.mpr ⟨p, hp, rfl⟩))

/-- C7, witness: instantiated at the fact relation's contract entry. -/
theorem C7_witness :
    ({ description := "fct_job_ads" ++ " should not be empty"
     , query := "SELECT COUNT(*) > 0 FROM " ++ "fct_job_ads" ++ ";"
     , expected := true } : DataTest) ∈ DATA_TESTS ∧
    (mainRun (.ok db7.conn)).findings =
      ["DATA TEST FAILED: dim_occupation should not be empty",
       "Expected True but got False"] ∧
    tableReport db7.conn db7.names
      ("dim_occupation",
        [("occupation_id", "VARCHAR"), ("occupation", "VARCHAR"),
         ("occupation_group", "VARCHAR"), ("occupation_field", "VARCHAR")]) =
      ([], true) :=
  C7_nonemptiness ("fct_job_ads",
    [("job_description_id", "INTEGER"), ("auxilliary_id", "VARCHAR"),
     ("employer_id", "VARCHAR"), ("job_details_id", "VARCHAR"),
     ("occupation_id", "VARCHAR"), ("vacancies", "INTEGER"),
     ("relevance", "DOUBLE"), ("application_deadline", "TIMESTAMP")])
    (by decide)

/-- C8 (amended): on every run that opens the connection and in which the
relation listing answers, no check is short-circuited: the findings are
exactly the concatenation, in declaration order, of every contract
entry's structural report and every data test's report, and a present,
describable relation's report is exactly its per-declared-column findings. -/
theorem C8_no_short_circuit (con : DBConn) (ts : List String)
    (h : con.showTablesResult = .ok ts) :
    (mainRun (.ok con)).findings =
      (EXPECTED_SCHEMAS.map fun p => (tableReport con ts p).1).flatten ++
      (DATA_TESTS.map (dataTestFinding con)).flatten ∧
    (∀ p info, p ∈ EXPECTED_SCHEMAS → p.1 ∈ ts →
      con.describeResult p.1 = .ok info →
      (tableReport con ts p).1 =
        p.2.filterMap fun c => columnFinding p.1 info c.1 c.2) := by
  constructor
  · rw [mainRun_eq con ts h]
    simp [run_data_tests_eq con, RunOutcome.findings]
  · intro p info hp hin hd
    simp only [tableReport, if_pos hin, validate_schema, hd]
    rw [schemaLoop_spec]
    simp

/-- C8, counterexample to the claim as stated: `crashCon2` opens the
connection and every one of its data checks would fail with a finding,
yet the run's output holds no finding at all — the unguarded
`SHOW TABLES` exception aborted the run before any check was evaluated. -/
theorem C8_counterexample :
    (mainRun (.ok crashCon2)).findings = [] ∧
    ({ description := "fct_job_ads should not be empty"
     , query := "SELECT COUNT(*) > 0 FROM fct_job_ads;"
     , expected := true } : DataTest) ∈ DATA_TESTS ∧
    dataTestFinding crashCon2
      { description := "fct_job_ads should not be empty"
      , query := "SELECT COUNT(*) > 0 FROM fct_job_ads;"
      , expected := true } =
      ["DATA TEST FAILED: fct_job_ads should not be empty",
       "Expected True but got False"] := by
  refine ⟨?_, by decide, by decide⟩
  rw [mainRun_crash crashCon2 "IO Error: database handle invalidated" rfl]
  rfl

/-- C8, witness: the decomposition applied to the healthy database, with
the per-column decomposition instantiated at `dim_occupation`. -/
theorem C8_witness :
    (mainRun (.ok goodDB.conn)).findings =
      (EXPECTED_SCHEMAS.map fun p => (tableReport goodDB.conn goodDB.names p).1).flatten ++
      (DATA_TESTS.map (dataTestFinding goodDB.conn)).flatten ∧
    (tableReport goodDB.conn goodDB.names
      ("dim_occupation",
        [("occupation_id", "VARCHAR"), ("occupation", "VARCHAR"),
         ("occupation_group", "VARCHAR"), ("occupation_field", "VARCHAR")])).1 =
      [("occupation_id", "VARCHAR"), ("occupation", "VARCHAR"),
       ("occupation_group", "VARCHAR"), ("occupation_field", "VARCHAR")].filterMap
        fun c => columnFinding "dim_occupation"
          [("occupation_id", "VARCHAR"), ("occupation", "VARCHAR"),
           ("occupation_group", "VARCHAR"), ("occupation_field", "VARCHAR")] c.1 c.2 :=
  ⟨(C8_no_short_circuit goodDB.conn goodDB.names rfl).1,
   (C8_no_short_circuit goodDB.conn goodDB.names rfl).2
     ("dim_occupation",
       [("occupation_id", "VARCHAR"), ("occupation", "VARCHAR"),
        ("occupation_group", "VARCHAR"), ("occupation_field", "VARCHAR")])
     [("occupation_id", "VARCHAR"), ("occupation", "VARCHAR"),
      ("occupation_group", "VARCHAR"), ("occupation_field", "VARCHAR")]
     (by decide) (by decide) rfl⟩

end DuckDBValidation
